import Mathlib

/-!
Verification of the skill-learning platform's core scoring logic.

This file embeds, in Lean 4 over exact rational arithmetic, the pure
computational core of:

* `phases/02-expert-patterns/backend/pattern_comparison.py`
  (`PatternComparator`: metric weighting, expert similarity, best-match
  ranking, feedback generation);
* `phases/02-expert-patterns/backend/expert_recommendations.py`
  (`ExpertRecommendationEngine`: strategy weighting and combination,
  learning-path derivation, user-level assessment);
* `phases/04-real-time/backend/realtime_analysis_engine.py`
  (`RealTimeAnalysisEngine`: overall score and improvement suggestions).

Python dicts with string keys are modelled as association lists in
insertion order; dict lookups with a default become `lookupD`; Python's
stable `list.sort(key=..., reverse=True)` becomes `List.insertionSort`
with the relation `keyDesc` (new element placed before equal keys of the
already-sorted suffix, which is exactly stable descending order);
operations that raise in Python (`ZeroDivisionError` on empty metric
sets) return `none`.
-/

namespace Learn

/-- Association-list lookup with a default value, modelling
`dict.get(key, default)` for insertion-ordered Python dicts. -/
def lookupD {β : Type} : List (String × β) → String → β → β
  | [], _, d => d
  | p :: ps, k, d => if p.1 = k then p.2 else lookupD ps k d

/-- Association-list lookup returning an `Option`, modelling
`key in dict` plus `dict[key]`. -/
def lookup? {β : Type} : List (String × β) → String → Option β
  | [], _ => none
  | p :: ps, k => if p.1 = k then some p.2 else lookup? ps k

/-- Descending comparison by a rational-valued key.  Used as the relation
for `List.insertionSort`; since `insertionSort` puts the inserted (earlier)
element before any element `b` with `keyDesc key a b`, and that includes
equal keys, the result is exactly Python's stable descending sort. -/
def keyDesc {α : Type} (key : α → ℚ) (a b : α) : Prop := key b ≤ key a

instance {α : Type} (key : α → ℚ) : DecidableRel (keyDesc key) :=
  fun a b => inferInstanceAs (Decidable (key b ≤ key a))

instance {α : Type} (key : α → ℚ) : IsTotal α (keyDesc key) :=
  ⟨fun a b => le_total (key b) (key a)⟩

instance {α : Type} (key : α → ℚ) : IsTrans α (keyDesc key) :=
  ⟨fun _ _ _ h1 h2 => le_trans h2 h1⟩

/-- Python `int()` on a rational: truncation toward zero. -/
def pyInt (q : ℚ) : ℤ := if q < 0 then ⌈q⌉ else ⌊q⌋

/-- Python `round()` to an integer: round half to even. -/
def pyRoundInt (q : ℚ) : ℤ :=
  if q - (⌊q⌋ : ℚ) < 1/2 then ⌊q⌋
  else if 1/2 < q - (⌊q⌋ : ℚ) then ⌊q⌋ + 1
  else if Even ⌊q⌋ then ⌊q⌋ else ⌊q⌋ + 1

/-- Python `round(q, 1)`: one decimal place, half to even. -/
def pyRound1 (q : ℚ) : ℚ := (pyRoundInt (q * 10) : ℚ) / 10

/-! ### `PatternComparator` (pattern_comparison.py) -/

/-- Embeds `PatternComparator.skill_weights`: configured per-skill metric weight
tables. -/
def skill_weights : List (String × List (String × ℚ)) :=
  [("Public Speaking",
    [("voice_modulation", 2/10), ("pause_timing", 15/100),
     ("gesture_coordination", 15/100), ("emotional_resonance", 2/10),
     ("eye_contact", 15/100), ("speaking_pace", 15/100)]),
   ("Sports/Athletics",
    [("footwork_precision", 2/10), ("technique_execution", 25/100),
     ("balance", 15/100), ("timing", 2/10), ("coordination", 2/10)]),
   ("Music/Instrument",
    [("rhythm_accuracy", 25/100), ("timing_precision", 2/10),
     ("finger_technique", 2/10), ("musical_expression", 15/100),
     ("tempo_control", 1/10), ("dynamics", 1/10)]),
   ("Cooking",
    [("knife_skills", 25/100), ("timing_precision", 2/10),
     ("technique_execution", 2/10), ("efficiency", 15/100),
     ("safety_awareness", 1/10), ("multitasking", 1/10)]),
   ("Dance/Fitness",
    [("movement_precision", 25/100), ("balance", 2/10),
     ("rhythm_accuracy", 2/10), ("flexibility", 15/100),
     ("coordination", 2/10)])]

/-- Weight resolution at the top of `compare_to_expert`:
`self.skill_weights.get(skill_type, {})`, falling back to equal weighting
`1/len(user_metrics)` over the user's metrics when no table is found. -/
def resolveWeights (skill_type : String) (user_metrics : List (String × ℚ)) :
    List (String × ℚ) :=
  let w := lookupD skill_weights skill_type []
  if w.isEmpty then
    user_metrics.map (fun p => (p.1, 1 / (user_metrics.length : ℚ)))
  else w

/-- One entry of the `metric_comparisons` breakdown built by
`compare_to_expert`. -/
structure MetricComparison where
  user_value : ℚ
  expert_value : ℚ
  similarity : ℚ
  weight : ℚ
  weighted_score : ℚ
  gap : ℚ
  deriving DecidableEq, Repr

/-- The per-metric body of the loop in `compare_to_expert`: expert value
defaults to `0.5`, weight defaults to `0.1`, similarity is
`1 - |user - expert|`. -/
def metricComparison (weights expert_pattern : List (String × ℚ))
    (metric : String) (user_value : ℚ) : MetricComparison :=
  let expert_value := lookupD expert_pattern metric (1/2)
  let weight := lookupD weights metric (1/10)
  let similarity := 1 - |user_value - expert_value|
  { user_value := user_value
    expert_value := expert_value
    similarity := similarity
    weight := weight
    weighted_score := similarity * weight
    gap := expert_value - user_value }

/-- The `metric_comparisons` dict of `compare_to_expert`, keyed in the
iteration order of `user_metrics`. -/
def compareBreakdown (user_metrics expert_pattern : List (String × ℚ))
    (skill_type : String) : List (String × MetricComparison) :=
  user_metrics.map fun p =>
    (p.1, metricComparison (resolveWeights skill_type user_metrics)
      expert_pattern p.1 p.2)

/-- The `total_score` accumulated by `compare_to_expert` (the
`overall_similarity` field of its comparison data). -/
def overall_similarity (user_metrics expert_pattern : List (String × ℚ))
    (skill_type : String) : ℚ :=
  ((compareBreakdown user_metrics expert_pattern skill_type).map
    (fun p => p.2.weighted_score)).sum

/-- Embeds `PatternComparator.compare_to_expert`: returns the similarity score
together with the per-metric breakdown. -/
def compare_to_expert (user_metrics expert_pattern : List (String × ℚ))
    (skill_type : String) : ℚ × List (String × MetricComparison) :=
  (overall_similarity user_metrics expert_pattern skill_type,
   compareBreakdown user_metrics expert_pattern skill_type)

/-- A row of the `expert_patterns` query joined with its expert, as
consumed by `find_best_expert_matches`. -/
structure ExpertPatternRow where
  expert_id : ℕ
  pattern_data : List (String × ℚ)
  confidence_score : ℚ
  deriving DecidableEq, Repr

/-- One match record built by `find_best_expert_matches`. -/
structure ExpertMatch where
  expert_id : ℕ
  similarity_score : ℚ
  pattern_confidence : ℚ
  deriving DecidableEq, Repr

/-- The `matches` list of `find_best_expert_matches` before sorting. -/
def expert_matches (user_metrics : List (String × ℚ)) (skill_type : String)
    (patterns : List ExpertPatternRow) : List ExpertMatch :=
  patterns.map fun p =>
    { expert_id := p.expert_id
      similarity_score := (compare_to_expert user_metrics p.pattern_data skill_type).1
      pattern_confidence := p.confidence_score }

/-- Embeds `PatternComparator.find_best_expert_matches`: sort the matches by
similarity score descending (Python's stable `sort(..., reverse=True)`)
and return the first `top_n`. -/
def find_best_expert_matches (user_metrics : List (String × ℚ))
    (skill_type : String) (patterns : List ExpertPatternRow) (top_n : ℕ) :
    List ExpertMatch :=
  (List.insertionSort (keyDesc ExpertMatch.similarity_score)
    (expert_matches user_metrics skill_type patterns)).take top_n

/-- The metric names that have an entry in the static `recommendations`
dict of `_get_specific_recommendation`. -/
def recommendation_metrics : List String :=
  ["voice_modulation", "pause_timing", "gesture_coordination", "eye_contact",
   "speaking_pace", "footwork_precision", "technique_execution",
   "rhythm_accuracy", "knife_skills", "movement_precision"]

/-- The structured part of a specific recommendation returned by
`_get_specific_recommendation` (the templated text is presentation only). -/
structure SpecificRecommendation where
  metric : String
  difficulty : String
  expected_improvement_time : String
  deriving DecidableEq, Repr

/-- Embeds `PatternComparator._get_specific_recommendation`: `None` exactly when
the metric has no entry in the static lookup. -/
def get_specific_recommendation (metric : String) (gap : ℚ) :
    Option SpecificRecommendation :=
  if metric ∈ recommendation_metrics then
    some { metric := metric
           difficulty := if 3/10 < gap then "intermediate" else "beginner"
           expected_improvement_time := if 3/10 < gap then "2-4 weeks" else "1-2 weeks" }
  else none

/-- The classification lists built by `generate_expert_feedback`
(strengths and improvement areas are recorded by metric name). -/
structure ExpertFeedback where
  strengths : List String
  improvement_areas : List String
  specific_recommendations : List SpecificRecommendation
  deriving DecidableEq, Repr

/-- Embeds `PatternComparator.generate_expert_feedback` over a comparison
breakdown: `if similarity > 0.8` → strength, `elif gap > 0.2` →
improvement area, with a specific recommendation appended when the static
lookup has one. -/
def generate_expert_feedback (breakdown : List (String × MetricComparison)) :
    ExpertFeedback :=
  { strengths :=
      breakdown.filterMap fun p =>
        if 4/5 < p.2.similarity then some p.1 else none
    improvement_areas :=
      breakdown.filterMap fun p =>
        if ¬ 4/5 < p.2.similarity ∧ 1/5 < p.2.gap then some p.1 else none
    specific_recommendations :=
      breakdown.filterMap fun p =>
        if ¬ 4/5 < p.2.similarity ∧ 1/5 < p.2.gap then
          get_specific_recommendation p.1 p.2.gap
        else none }

/-! ### `ExpertRecommendationEngine` (expert_recommendations.py) -/

/-- Embeds `ExpertRecommendationEngine.recommendation_strategies` as declared in
`__init__` (fixed combination weights keyed by strategy name). -/
def recommendation_strategies : List (String × ℚ) :=
  [("similar_performance", 4/10), ("aspirational", 3/10),
   ("progressive", 2/10), ("cross_domain", 1/10)]

/-- The bucket names under which `get_personalized_recommendations`
collects candidates before calling `_rank_and_combine_recommendations`. -/
def personalized_bucket_names : List String :=
  ["similar_level", "aspirational", "progressive", "improvement_focused",
   "trending"]

/-- A candidate inside one strategy bucket: its expert identity and the
`recommendation_score` set by the strategy finder (absent entries default
to `0.5` in the combiner, hence an `Option`). -/
structure RecCandidate where
  expert_id : ℕ
  recommendation_score : Option ℚ
  deriving DecidableEq, Repr

/-- A combined recommendation after strategy weighting. -/
structure RankedRecommendation where
  expert_id : ℕ
  strategy : String
  strategy_weight : ℚ
  final_score : ℚ
  deriving DecidableEq, Repr

/-- The dict-update step of the deduplication loop: Python keeps the
insertion position of the first occurrence of an `expert_id` and replaces
its value only when the new `final_score` is strictly greater. -/
def upsertBest (acc : List RankedRecommendation) (r : RankedRecommendation) :
    List RankedRecommendation :=
  if acc.any (fun x => x.expert_id == r.expert_id) then
    acc.map fun x =>
      if x.expert_id = r.expert_id ∧ x.final_score < r.final_score then r else x
  else acc ++ [r]

/-- Embeds `ExpertRecommendationEngine._rank_and_combine_recommendations`:
weight each bucket by `recommendation_strategies.get(strategy, 0.1)`,
set `final_score = recommendation_score (default 0.5) × weight`,
deduplicate by expert keeping the highest final score, sort descending
(stable) and truncate. -/
def rank_and_combine_recommendations
    (recommendations : List (String × List RecCandidate))
    (num_recommendations : ℕ) : List RankedRecommendation :=
  let all := (recommendations.map fun sr =>
    sr.2.map fun e =>
      let w := lookupD recommendation_strategies sr.1 (1/10)
      { expert_id := e.expert_id
        strategy := sr.1
        strategy_weight := w
        final_score := (e.recommendation_score.getD (1/2)) * w
        : RankedRecommendation }).flatten
  let uniq := all.foldl upsertBest []
  (List.insertionSort (keyDesc RankedRecommendation.final_score) uniq).take
    num_recommendations

/-- Models `sum(metrics.values()) / len(metrics)`, which raises
`ZeroDivisionError` on an empty dict — modelled as `none`. -/
def avgScore? (metrics : List (String × ℚ)) : Option ℚ :=
  if metrics.isEmpty then none
  else some ((metrics.map Prod.snd).sum / (metrics.length : ℚ))

/-- Embeds `ExpertRecommendationEngine._assess_user_level`; `none` models the
`ZeroDivisionError` raised on an empty metric dict. -/
def assess_user_level (user_metrics : List (String × ℚ)) : Option String :=
  (avgScore? user_metrics).map fun avg =>
    if 8/10 ≤ avg then "advanced"
    else if 6/10 ≤ avg then "intermediate"
    else if 4/10 ≤ avg then "beginner_plus"
    else "beginner"

/-- Embeds `ExpertRecommendationEngine._find_similar_level_experts`: keep experts
whose average metric is within `0.2` of the user's average, score them by
`1 - |difference|`, sort descending and take 3.  `none` models the
`ZeroDivisionError` on an empty user metric dict (raised before the loop)
or on an expert with an empty pattern. -/
def find_similar_level_experts (experts : List ExpertPatternRow)
    (user_metrics : List (String × ℚ)) : Option (List (ℕ × ℚ)) :=
  match avgScore? user_metrics with
  | none => none
  | some ua =>
    if experts.any (fun e => e.pattern_data.isEmpty) then none
    else some
      ((List.insertionSort (keyDesc Prod.snd) (experts.filterMap fun e =>
        let ea := (e.pattern_data.map Prod.snd).sum / (e.pattern_data.length : ℚ)
        if |ea - ua| ≤ 2/10 then some (e.expert_id, 1 - |ea - ua|)
        else none)).take 3)

/-- One gap entry of `_generate_learning_path`. -/
structure GapInfo where
  metric : String
  gap : ℚ
  current : ℚ
  target : ℚ
  deriving DecidableEq, Repr

/-- One learning step of `_generate_learning_path` (the title-cased
`focus_area` string is presentation; the underlying metric is kept). -/
structure LearningStep where
  step : ℕ
  metric : String
  current_level : ℚ
  target_level : ℚ
  improvement_needed : ℚ
  priority : String
  estimated_weeks : ℤ
  deriving DecidableEq, Repr

/-- The learning path returned by `_generate_learning_path`. -/
structure LearningPath where
  total_estimated_weeks : ℤ
  learning_steps : List LearningStep
  deriving DecidableEq, Repr

/-- The `gaps` list collected by the first loop of
`ExpertRecommendationEngine._generate_learning_path`: one entry per
expert-pattern metric the user also has whose expert-minus-user gap
exceeds `0.1`. -/
def learning_gaps (pattern_data user_metrics : List (String × ℚ)) :
    List GapInfo :=
  pattern_data.filterMap fun p =>
    (lookup? user_metrics p.1).bind fun uv =>
      if 1/10 < p.2 - uv then
        some { metric := p.1, gap := p.2 - uv, current := uv, target := p.2
               : GapInfo }
      else none

/-- Embeds `ExpertRecommendationEngine._generate_learning_path`: sort the
collected gaps descending (stable), take the top 3, and derive a step for
each with priority `"high"` iff the gap exceeds `0.3` and effort
`max(2, int(gap * 8))` weeks; the total is the sum of the steps. -/
def generate_learning_path (pattern_data user_metrics : List (String × ℚ)) :
    LearningPath :=
  let sorted := List.insertionSort (keyDesc GapInfo.gap)
    (learning_gaps pattern_data user_metrics)
  let steps := (sorted.take 3).enum.map fun iq =>
    { step := iq.1 + 1
      metric := iq.2.metric
      current_level := iq.2.current
      target_level := iq.2.target
      improvement_needed := iq.2.gap
      priority := if (3/10 : ℚ) < iq.2.gap then "high" else "medium"
      estimated_weeks := max 2 (pyInt (iq.2.gap * 8))
      : LearningStep }
  { total_estimated_weeks := (steps.map LearningStep.estimated_weeks).sum
    learning_steps := steps }

/-! ### `RealTimeAnalysisEngine` (realtime_analysis_engine.py) -/

/-- One entry of the metrics list consumed by `_calculate_overall_score`
and `_generate_improvement_suggestions` (the fields they read). -/
structure RTMetric where
  metric_name : String
  value : ℚ
  improvement_delta : ℚ
  performance_level : String
  deriving DecidableEq, Repr

/-- The `weights` tables of `RealTimeAnalysisEngine._get_metric_weight`. -/
def metric_importance_weights : List (String × List (String × ℚ)) :=
  [("Public Speaking",
    [("confidence_score", 15/10), ("eye_contact_percentage", 13/10),
     ("posture_stability", 12/10), ("pace_words_per_minute", 11/10),
     ("volume_consistency", 1), ("gesture_frequency", 8/10),
     ("pause_frequency", 7/10)]),
   ("Dance/Fitness",
    [("rhythm_accuracy", 15/10), ("movement_fluidity", 13/10),
     ("joint_stability", 12/10), ("energy_level", 1),
     ("beat_synchronization", 11/10)]),
   ("Music/Instrument",
    [("rhythm_consistency", 15/10), ("timing_accuracy", 14/10),
     ("finger_position", 12/10), ("hand_coordination", 11/10),
     ("posture_score", 1)])]

/-- Embeds `RealTimeAnalysisEngine._get_metric_weight`: table lookup with
default weight `1.0`. -/
def get_metric_weight (metric_name skill_type : String) : ℚ :=
  lookupD (lookupD metric_importance_weights skill_type []) metric_name 1

/-- Embeds `RealTimeAnalysisEngine._calculate_overall_score`: `50.0` on an empty
list, otherwise a weighted average of the values (values above 100 are
first replaced by `min(value/2, 100)`), clamped to `[0, 100]` and rounded
to one decimal. -/
def calculate_overall_score (metrics : List RTMetric) (skill_type : String) :
    ℚ :=
  if metrics.isEmpty then 50
  else
    let total_weighted_score := (metrics.map fun m =>
      let score := if 100 < m.value then min (m.value / 2) 100 else m.value
      score * get_metric_weight m.metric_name skill_type).sum
    let total_weight :=
      (metrics.map fun m => get_metric_weight m.metric_name skill_type).sum
    let overall_score :=
      if 0 < total_weight then total_weighted_score / total_weight else 50
    pyRound1 (min (max overall_score 0) 100)

/-- The structured part of one suggestion template (priority and
category; the template text is presentation). -/
structure SuggestionTemplate where
  template_priority : String
  category : String
  deriving DecidableEq, Repr

/-- Embeds `RealTimeAnalysisEngine._load_suggestion_templates`: the five metric
names that have registered templates, each with its template list. -/
def suggestion_templates : List (String × List SuggestionTemplate) :=
  [("posture_stability",
    [{ template_priority := "high", category := "movement" },
     { template_priority := "medium", category := "movement" }]),
   ("speech_pace",
    [{ template_priority := "high", category := "speech" },
     { template_priority := "medium", category := "speech" }]),
   ("eye_contact",
    [{ template_priority := "high", category := "movement" },
     { template_priority := "medium", category := "movement" }]),
   ("rhythm_accuracy",
    [{ template_priority := "high", category := "timing" }]),
   ("technique_score",
    [{ template_priority := "medium", category := "technique" }])]

/-- Embeds `RealTimeAnalysisEngine._determine_priority`. -/
def determine_priority (m : RTMetric) : String :=
  if m.performance_level = "needs_improvement" ∨ 15 < m.improvement_delta then
    "high"
  else if 8 < m.improvement_delta then "medium"
  else "low"

/-- Embeds `RealTimeAnalysisEngine._calculate_confidence_score`. -/
def calculate_confidence_score (m : RTMetric) : ℚ :=
  if 20 < m.improvement_delta then 95/100
  else if 10 < m.improvement_delta then 85/100
  else if 5 < m.improvement_delta then 75/100
  else 65/100

/-- One improvement suggestion emitted by
`_generate_improvement_suggestions` (the formatted content string is
presentation; the category comes from the first template). -/
structure ImprovementSuggestion where
  suggestion_type : String
  priority : String
  category : String
  confidence_score : ℚ
  metric_impact : ℚ
  deriving DecidableEq, Repr

/-- Embeds `RealTimeAnalysisEngine._generate_improvement_suggestions`: sort the
metrics by `improvement_delta` descending (stable), take the top 5, and
emit a suggestion for each that has a registered template and a strictly
positive improvement delta. -/
def generate_improvement_suggestions (metrics : List RTMetric)
    (skill_type : String) : List ImprovementSuggestion :=
  let prioritized :=
    List.insertionSort (keyDesc RTMetric.improvement_delta) metrics
  (prioritized.take 5).filterMap fun m =>
    (lookupD suggestion_templates m.metric_name []).head?.bind fun t =>
      if 0 < m.improvement_delta then
        some { suggestion_type := m.metric_name
               priority := determine_priority m
               category := t.category
               confidence_score := calculate_confidence_score m
               metric_impact := m.improvement_delta }
      else none

/-! ### Helper lemmas about lookups, stable sorting, sums and rounding -/

theorem lookupD_of_mem {β : Type} {l : List (String × β)}
    (hnd : (l.map Prod.fst).Nodup) {k : String} {v : β} (hm : (k, v) ∈ l)
    (d : β) : lookupD l k d = v := by
  induction l with
  | nil => cases hm
  | cons p ps ih =>
    simp only [List.map_cons, List.nodup_cons] at hnd
    rcases List.mem_cons.mp hm with h | h
    · cases h.symm
      simp [lookupD]
    · have hne : p.1 ≠ k := by
        intro he
        exact hnd.1 (he ▸ List.mem_map_of_mem Prod.fst h)
      simp [lookupD, hne, ih hnd.2 h]

theorem lookupD_mem_of_key {β : Type} {l : List (String × β)} {k : String}
    (hk : k ∈ l.map Prod.fst) (d : β) : (k, lookupD l k d) ∈ l := by
  induction l with
  | nil => simp at hk
  | cons p ps ih =>
    by_cases h : p.1 = k
    · simp only [lookupD, if_pos h]
      exact h ▸ (Prod.mk.eta ▸ List.mem_cons_self p ps)
    · simp only [lookupD, if_neg h]
      simp only [List.map_cons, List.mem_cons] at hk
      rcases hk with hk | hk
      · exact absurd hk.symm h
      · exact List.mem_cons_of_mem p (ih hk)

theorem lookupD_mem_or_default {β : Type} (l : List (String × β)) (k : String)
    (d : β) : lookupD l k d = d ∨ (k, lookupD l k d) ∈ l := by
  induction l with
  | nil => exact Or.inl rfl
  | cons p ps ih =>
    by_cases h : p.1 = k
    · simp only [lookupD, if_pos h]
      exact Or.inr (h ▸ (Prod.mk.eta ▸ List.mem_cons_self p ps))
    · simp only [lookupD, if_neg h]
      rcases ih with hd | hm
      · exact Or.inl hd
      · exact Or.inr (List.mem_cons_of_mem p hm)

theorem mem_keyed_unique {β : Type} {l : List (String × β)}
    (hnd : (l.map Prod.fst).Nodup) {k : String} {v w : β}
    (hv : (k, v) ∈ l) (hw : (k, w) ∈ l) : v = w := by
  have h1 := lookupD_of_mem hnd hv v
  have h2 := lookupD_of_mem hnd hw v
  rw [h1] at h2
  exact h2

theorem orderedInsert_filter_keyDesc {α : Type} (key : α → ℚ) (x : α)
    (l : List α) (q : ℚ) :
    (List.orderedInsert (keyDesc key) x l).filter (fun a => decide (key a = q))
      = if key x = q then
        x :: l.filter (fun a => decide (key a = q))
      else l.filter (fun a => decide (key a = q)) := by
  induction l with
  | nil => by_cases h : key x = q <;> simp [List.orderedInsert, h]
  | cons b bs ih =>
    simp only [List.orderedInsert]
    by_cases hxb : keyDesc key x b
    · rw [if_pos hxb]
      by_cases h : key x = q <;> simp [List.filter_cons, h]
    · rw [if_neg hxb]
      have hlt : key x < key b := not_le.mp hxb
      by_cases h : key x = q
      · have hb : ¬ key b = q := h ▸ ne_of_gt hlt
        simp [List.filter_cons, hb, ih, h]
      · simp [List.filter_cons, ih, h]

theorem insertionSort_filter_keyDesc {α : Type} (key : α → ℚ) (l : List α)
    (q : ℚ) :
    (List.insertionSort (keyDesc key) l).filter (fun a => decide (key a = q))
      = l.filter (fun a => decide (key a = q)) := by
  induction l with
  | nil => rfl
  | cons x xs ih =>
    simp only [List.insertionSort, orderedInsert_filter_keyDesc, ih]
    by_cases h : key x = q <;> simp [List.filter_cons, h]

theorem sum_map_const_rat {α : Type} (l : List α) (c : ℚ) :
    (l.map fun _ => c).sum = (l.length : ℚ) * c := by
  induction l with
  | nil => simp
  | cons x xs ih => simp [ih]; ring

theorem sum_lookupD_le (W : List (String × ℚ)) (keys : List String) (d : ℚ)
    (hknd : keys.Nodup) (hWnd : (W.map Prod.fst).Nodup)
    (hW : ∀ p ∈ W, 0 ≤ p.2) (hsub : ∀ k ∈ keys, k ∈ W.map Prod.fst) :
    (keys.map fun k => lookupD W k d).sum ≤ (W.map Prod.snd).sum := by
  have h1 : (keys.map fun k => lookupD W k d).sum
      = keys.toFinset.sum (fun k => lookupD W k d) :=
    (List.sum_toFinset _ hknd).symm
  have h2 : ((W.map Prod.fst).map fun k => lookupD W k d).sum
      = (W.map Prod.fst).toFinset.sum (fun k => lookupD W k d) :=
    (List.sum_toFinset _ hWnd).symm
  have hsubF : keys.toFinset ⊆ (W.map Prod.fst).toFinset := by
    intro k hk
    rw [List.mem_toFinset] at hk ⊢
    exact hsub k hk
  have h3 : keys.toFinset.sum (fun k => lookupD W k d)
      ≤ (W.map Prod.fst).toFinset.sum (fun k => lookupD W k d) := by
    refine Finset.sum_le_sum_of_subset_of_nonneg hsubF ?_
    intro k hk _
    rw [List.mem_toFinset] at hk
    exact hW _ (lookupD_mem_of_key hk d)
  have h4 : ((W.map Prod.fst).map fun k => lookupD W k d).sum
      = (W.map Prod.snd).sum := by
    rw [List.map_map]
    refine congrArg List.sum (List.map_congr_left ?_)
    intro p hp
    exact lookupD_of_mem hWnd (Prod.mk.eta ▸ hp) d
  calc (keys.map fun k => lookupD W k d).sum
      = keys.toFinset.sum (fun k => lookupD W k d) := h1
    _ ≤ (W.map Prod.fst).toFinset.sum (fun k => lookupD W k d) := h3
    _ = ((W.map Prod.fst).map fun k => lookupD W k d).sum := h2.symm
    _ = (W.map Prod.snd).sum := h4

theorem pairwise_enum_of_pairwise {α : Type} {S : α → α → Prop}
    {l : List α} (h : l.Pairwise S) :
    l.enum.Pairwise (fun a b => S a.2 b.2) := by
  have h1 : (l.enum.map Prod.snd).Pairwise S := by
    rw [List.enum_map_snd]
    exact h
  exact List.pairwise_map.mp h1

theorem enum_map_snd_comp {α β : Type} (l : List α) (h : α → β) :
    l.enum.map (fun iq => h iq.2) = l.map h := by
  have e : l.enum.map (fun iq => h iq.2) = (l.enum.map Prod.snd).map h := by
    rw [List.map_map]
    rfl
  rw [e, List.enum_map_snd]

theorem mem_learning_gaps_iff (pattern_data user_metrics : List (String × ℚ))
    (g : GapInfo) :
    g ∈ learning_gaps pattern_data user_metrics ↔
      ((g.metric, g.target) ∈ pattern_data ∧
       lookup? user_metrics g.metric = some g.current ∧
       g.gap = g.target - g.current ∧
       1/10 < g.gap) := by
  constructor
  · intro hg
    obtain ⟨p, hp, hpe⟩ := List.mem_filterMap.mp hg
    rcases hlk : lookup? user_metrics p.1 with _ | uv
    · rw [hlk] at hpe; cases hpe
    · rw [hlk] at hpe
      simp only [Option.some_bind] at hpe
      by_cases hc : 1/10 < p.2 - uv
      · rw [if_pos hc] at hpe
        rw [← Option.some.inj hpe]
        exact ⟨Prod.mk.eta ▸ hp, hlk, rfl, hc⟩
      · rw [if_neg hc] at hpe; cases hpe
  · intro hcond
    cases g with
    | mk m gp c t =>
      obtain ⟨hp, hlk, hgap, hqual⟩ := hcond
      dsimp only at hp hlk hgap hqual
      refine List.mem_filterMap.mpr ⟨(m, t), hp, ?_⟩
      dsimp only
      rw [hlk]
      simp only [Option.some_bind]
      rw [hgap] at hqual
      rw [if_pos hqual, hgap]

theorem le_pyRoundInt_of_le {q : ℚ} {m : ℤ} (h : (m : ℚ) ≤ q) :
    m ≤ pyRoundInt q := by
  have hf : m ≤ ⌊q⌋ := Int.le_floor.mpr h
  unfold pyRoundInt
  split_ifs <;> omega

theorem pyRoundInt_le_of_le {q : ℚ} {m : ℤ} (h : q ≤ (m : ℚ)) :
    pyRoundInt q ≤ m := by
  have hf : ⌊q⌋ ≤ m := by
    have := Int.floor_le_floor h
    rwa [Int.floor_intCast] at this
  have hfl : (⌊q⌋ : ℚ) ≤ q := Int.floor_le q
  unfold pyRoundInt
  split_ifs with h1 h2 h3
  · exact hf
  · rcases lt_or_eq_of_le hf with hlt | heq
    · omega
    · exfalso
      have hq : (1:ℚ)/2 < q - (⌊q⌋ : ℚ) := h2
      rw [heq] at hq
      have : (m : ℚ) < q := by linarith
      exact absurd h (not_le.mpr this)
  · exact hf
  · rcases lt_or_eq_of_le hf with hlt | heq
    · omega
    · exfalso
      have hq : (1:ℚ)/2 ≤ q - (⌊q⌋ : ℚ) := not_lt.mp h1
      rw [heq] at hq
      have : (m : ℚ) < q := by linarith
      exact absurd h (not_le.mpr this)

theorem pyRound1_bounds {x : ℚ} (h0 : 0 ≤ x) (h100 : x ≤ 100) :
    0 ≤ pyRound1 x ∧ pyRound1 x ≤ 100 := by
  have hl : (0 : ℤ) ≤ pyRoundInt (x * 10) :=
    le_pyRoundInt_of_le (by push_cast; linarith)
  have hu : pyRoundInt (x * 10) ≤ 1000 :=
    pyRoundInt_le_of_le (by push_cast; linarith)
  unfold pyRound1
  constructor
  · exact div_nonneg (by exact_mod_cast hl) (by norm_num)
  · rw [div_le_iff₀ (by norm_num : (0:ℚ) < 10)]
    calc (pyRoundInt (x * 10) : ℚ) ≤ 1000 := by exact_mod_cast hu
      _ = 100 * 10 := by norm_num

/-! ### Theorems -/

/-- C9: for user metrics `{"speaking_pace": 1.0, "eye_contact": 0.3}`
against expert pattern `{"speaking_pace": 1.0, "eye_contact": 0.9}` under
the equal-weighting fallback (skill type with no configured table), the
weights are 0.5 each, the per-metric similarities are 1.0 and 0.4, and
the overall score is 0.7. -/
theorem compare_equal_weight_example :
    (compare_to_expert [("speaking_pace", 1), ("eye_contact", 3/10)]
      [("speaking_pace", 1), ("eye_contact", 9/10)] "General").1 = 7/10 ∧
    ((compare_to_expert [("speaking_pace", 1), ("eye_contact", 3/10)]
      [("speaking_pace", 1), ("eye_contact", 9/10)] "General").2.map
        fun p => p.2.similarity) = [1, 2/5] ∧
    ((compare_to_expert [("speaking_pace", 1), ("eye_contact", 3/10)]
      [("speaking_pace", 1), ("eye_contact", 9/10)] "General").2.map
        fun p => p.2.weight) = [1/2, 1/2] := by
  refine ⟨?_, ?_, ?_⟩ <;>
    simp [compare_to_expert, overall_similarity, compareBreakdown,
      metricComparison, resolveWeights, lookupD, skill_weights] <;>
    norm_num [abs_of_nonpos, abs_of_nonneg]

/-- C1: the combination step applies the default weight 0.1 to the
`similar_level` bucket, because the strategy-weight table is keyed
`similar_performance`, not `similar_level`; so a peer-level candidate with
raw score 1.0 receives final score 0.1, not the declared 0.4 × 1.0. -/
theorem similar_level_weight_is_default :
    rank_and_combine_recommendations
      [("similar_level", [{ expert_id := 1, recommendation_score := some 1 }]),
       ("aspirational", []), ("progressive", []),
       ("improvement_focused", []), ("trending", [])] 5
      = [{ expert_id := 1, strategy := "similar_level",
           strategy_weight := 1/10, final_score := 1/10 }] ∧
    lookupD recommendation_strategies ("similar_performance") (1/10) = 4/10 ∧
    (1/10 : ℚ) ≠ 1 * (4/10) := by
  refine ⟨?_, ?_, by norm_num⟩
  · simp [rank_and_combine_recommendations, upsertBest, lookupD,
      recommendation_strategies, keyDesc]
  · simp [lookupD, recommendation_strategies]

/-- C3: on an empty user metric dict, `_find_similar_level_experts` and
`_assess_user_level` hit `sum(...)/len(...)` with `len = 0` (modelled as
`none`), so `get_personalized_recommendations` propagates a
`ZeroDivisionError` instead of returning a neutral result; the real-time
`_calculate_overall_score` does short-circuit to the neutral score 50.0
on an empty metric list. -/
theorem empty_metrics_divzero_vs_neutral :
    (∀ experts, find_similar_level_experts experts [] = none) ∧
    assess_user_level [] = none ∧
    ∀ skill_type, calculate_overall_score [] skill_type = 50 :=
  ⟨fun _ => rfl, rfl, fun _ => rfl⟩

/-- C8 counterexample: for an expert pattern `{"technique_execution": 0.9}`
and user value 0, the single gap is 0.9 and the generated step estimates
`max(2, int(0.9 × 8)) = 7` weeks, not `max(2, 0.9 × 8) = 7.2` weeks as the
claim's formula without truncation would give. -/
theorem learning_path_weeks_truncated :
    ((generate_learning_path [("technique_execution", 9/10)]
        [("technique_execution", 0)]).learning_steps.map
      LearningStep.estimated_weeks) = [7] ∧
    ((7 : ℚ) ≠ max 2 ((9/10 - 0) * 8)) := by
  constructor
  · norm_num [generate_learning_path, learning_gaps, lookup?, keyDesc, pyInt,
      List.filterMap_cons, List.insertionSort, List.orderedInsert,
      Int.floor_eq_iff]
  · rw [max_eq_right (by norm_num : (2:ℚ) ≤ (9/10 - 0) * 8)]
    norm_num

/-- C2 counterexample: with the configured "Public Speaking" weight table
in force, eleven user metrics outside the table each get the default
weight 0.1; comparing a vector of ones (all values in `[0,1]`) against
itself gives overall similarity 1.1 > 1. -/
theorem overall_similarity_above_one :
    overall_similarity
      [("m01", 1), ("m02", 1), ("m03", 1), ("m04", 1), ("m05", 1),
       ("m06", 1), ("m07", 1), ("m08", 1), ("m09", 1), ("m10", 1),
       ("m11", 1)]
      [("m01", 1), ("m02", 1), ("m03", 1), ("m04", 1), ("m05", 1),
       ("m06", 1), ("m07", 1), ("m08", 1), ("m09", 1), ("m10", 1),
       ("m11", 1)]
      "Public Speaking" = 11/10 ∧ ¬ (11/10 : ℚ) ≤ 1 := by
  constructor
  · simp [overall_similarity, compareBreakdown, metricComparison,
      resolveWeights, lookupD, skill_weights]
    norm_num
  · norm_num

/-- C4 counterexample: similarity is not symmetric when the two metric
vectors have different key sets: comparing `{"a": 0}` to `{}` gives 0.5
(default expert value 0.5, equal weight 1), while comparing `{}` to
`{"a": 0}` iterates over no metrics and gives 0. -/
theorem overall_similarity_not_symmetric :
    overall_similarity [("a", 0)] [] "X" = 1/2 ∧
    overall_similarity [] [("a", 0)] "X" = 0 ∧ ((1:ℚ)/2 ≠ 0) := by
  refine ⟨?_, rfl, by norm_num⟩
  norm_num [overall_similarity, compareBreakdown, metricComparison,
    resolveWeights, lookupD, skill_weights, abs_of_nonneg, abs_of_nonpos]

/-- C5: for every input metric list (including pathological magnitudes:
values far above 100 or negative) and every skill type, the overall score
returned by the real-time classifier lies within `[0, 100]`. -/
theorem overall_score_within_range (metrics : List RTMetric)
    (skill_type : String) :
    0 ≤ calculate_overall_score metrics skill_type ∧
    calculate_overall_score metrics skill_type ≤ 100 := by
  unfold calculate_overall_score
  cases hM : metrics.isEmpty
  · simp only [hM, Bool.false_eq_true, if_false]
    refine pyRound1_bounds ?_ ?_
    · exact le_min (le_max_right _ _) (by norm_num)
    · exact min_le_right _ _
  · simp only [hM, if_true]
    norm_num

/-- C5 witness: the bound evaluated at a pathological concrete input
(one metric far above 100, one negative). -/
theorem overall_score_within_range_witness :
    0 ≤ calculate_overall_score
      [{ metric_name := "confidence_score", value := 100000,
         improvement_delta := 0, performance_level := "fair" },
       { metric_name := "posture_stability", value := -500,
         improvement_delta := 0, performance_level := "fair" }]
      "Public Speaking" ∧
    calculate_overall_score
      [{ metric_name := "confidence_score", value := 100000,
         improvement_delta := 0, performance_level := "fair" },
       { metric_name := "posture_stability", value := -500,
         improvement_delta := 0, performance_level := "fair" }]
      "Public Speaking" ≤ 100 :=
  overall_score_within_range _ _

/-- C10: the real-time classifier emits at most 5 improvement suggestions
per pass, and every emitted suggestion is for a metric that has a
registered suggestion template and a strictly positive improvement delta
(so untemplated metrics produce no suggestion even when ranked in the top
5 improvement areas). -/
theorem improvement_suggestions_spec (metrics : List RTMetric)
    (skill_type : String) :
    (generate_improvement_suggestions metrics skill_type).length ≤ 5 ∧
    ∀ s ∈ generate_improvement_suggestions metrics skill_type,
      s.suggestion_type ∈ suggestion_templates.map Prod.fst ∧
      0 < s.metric_impact := by
  constructor
  · calc (generate_improvement_suggestions metrics skill_type).length
        ≤ ((List.insertionSort (keyDesc RTMetric.improvement_delta)
            metrics).take 5).length := List.length_filterMap_le _ _
      _ ≤ 5 := (List.length_take 5 _) ▸ min_le_left _ _
  · intro s hs
    obtain ⟨m, _, hsm⟩ := List.mem_filterMap.mp hs
    cases htl : lookupD suggestion_templates m.metric_name [] with
    | nil =>
      rw [htl] at hsm
      simp at hsm
    | cons t ts =>
      rw [htl] at hsm
      simp only [List.head?_cons, Option.some_bind] at hsm
      by_cases hd : 0 < m.improvement_delta
      · rw [if_pos hd] at hsm
        have hs' := Option.some.inj hsm
        rcases lookupD_mem_or_default suggestion_templates m.metric_name []
          with hdef | hmem
        · rw [htl] at hdef; cases hdef
        · constructor
          · rw [← hs']
            exact List.mem_map_of_mem Prod.fst hmem
          · rw [← hs']
            exact hd
      · rw [if_neg hd] at hsm; cases hsm

/-- C10 witness: at a concrete input where an untemplated metric has the
largest improvement delta, the suggestion count stays within 5 and every
suggestion is templated with positive delta. -/
theorem improvement_suggestions_spec_witness :
    (generate_improvement_suggestions
      [⟨"head_movement", 10, 90, "fair"⟩, ⟨"eye_contact", 50, 30, "fair"⟩]
      "Public Speaking").length ≤ 5 ∧
    ((⟨"eye_contact", "high", "movement", 95/100, 30⟩
        : ImprovementSuggestion).suggestion_type
      ∈ suggestion_templates.map Prod.fst ∧
     0 < (⟨"eye_contact", "high", "movement", 95/100, 30⟩
        : ImprovementSuggestion).metric_impact) :=
  ⟨(improvement_suggestions_spec
      [⟨"head_movement", 10, 90, "fair"⟩, ⟨"eye_contact", 50, 30, "fair"⟩]
      "Public Speaking").1,
   (improvement_suggestions_spec
      [⟨"head_movement", 10, 90, "fair"⟩, ⟨"eye_contact", 50, 30, "fair"⟩]
      "Public Speaking").2
    ⟨"eye_contact", "high", "movement", 95/100, 30⟩
    (by simp [generate_improvement_suggestions, suggestion_templates,
      lookupD, keyDesc, determine_priority, calculate_confidence_score,
      List.filterMap_cons, show ((30:ℚ) ≤ 90) from by norm_num,
      show ((0:ℚ) < 30) from by norm_num,
      show ((15:ℚ) < 30) from by norm_num,
      show ((20:ℚ) < 30) from by norm_num])⟩

/-- C6: `find_best_expert_matches` returns at most `top_n` entries, sorted
by descending similarity score; the sort is stable (for every score value,
the sorted list restricted to that score equals the original match list
restricted to it, i.e. ties keep iteration/insertion order). -/
theorem find_best_matches_spec (user_metrics : List (String × ℚ))
    (skill_type : String) (patterns : List ExpertPatternRow) (top_n : ℕ) :
    (find_best_expert_matches user_metrics skill_type patterns top_n).length
      ≤ top_n ∧
    (find_best_expert_matches user_metrics skill_type patterns
      top_n).Pairwise
      (fun a b => b.similarity_score ≤ a.similarity_score) ∧
    ∀ q : ℚ,
      (List.insertionSort (keyDesc ExpertMatch.similarity_score)
        (expert_matches user_metrics skill_type patterns)).filter
        (fun m => decide (m.similarity_score = q))
      = (expert_matches user_metrics skill_type patterns).filter
        (fun m => decide (m.similarity_score = q)) := by
  refine ⟨?_, ?_, fun q => insertionSort_filter_keyDesc _ _ q⟩
  · exact (List.length_take _ _) ▸ min_le_left _ _
  · have hs := List.sorted_insertionSort (keyDesc ExpertMatch.similarity_score)
      (expert_matches user_metrics skill_type patterns)
    exact hs.sublist (List.take_sublist _ _)

/-- C6 witness: the truncation bound evaluated at a concrete two-pattern
input with `top_n = 1`. -/
theorem find_best_matches_spec_witness :
    (find_best_expert_matches [("eye_contact", 1/2)] "Public Speaking"
      [{ expert_id := 1, pattern_data := [("eye_contact", 1)],
         confidence_score := 9/10 },
       { expert_id := 2, pattern_data := [("eye_contact", 1/2)],
         confidence_score := 8/10 }] 1).length ≤ 1 :=
  (find_best_matches_spec [("eye_contact", 1/2)] "Public Speaking"
    [{ expert_id := 1, pattern_data := [("eye_contact", 1)],
       confidence_score := 9/10 },
     { expert_id := 2, pattern_data := [("eye_contact", 1/2)],
       confidence_score := 8/10 }] 1).1

/-- C8 (amended): every derived learning path has at most 3 steps, the
steps are the metric gaps (expert minus user, only those above 0.1)
sorted descending, each step has priority `"high"` iff its gap exceeds
0.3 and effort `max(2, int(gap × 8))` weeks (`int` truncates), and the
path's total weeks is the sum of the step estimates. -/
theorem learning_path_spec (pattern_data user_metrics : List (String × ℚ)) :
    (generate_learning_path pattern_data user_metrics).learning_steps.length
      ≤ 3 ∧
    (generate_learning_path pattern_data
      user_metrics).learning_steps.Pairwise
      (fun a b => b.improvement_needed ≤ a.improvement_needed) ∧
    (∀ st ∈ (generate_learning_path pattern_data user_metrics).learning_steps,
      1/10 < st.improvement_needed ∧
      st.improvement_needed = st.target_level - st.current_level ∧
      lookup? user_metrics st.metric = some st.current_level ∧
      (st.metric, st.target_level) ∈ pattern_data ∧
      st.priority = (if 3/10 < st.improvement_needed then "high"
        else "medium") ∧
      st.estimated_weeks = max 2 (pyInt (st.improvement_needed * 8))) ∧
    (generate_learning_path pattern_data user_metrics).total_estimated_weeks
      = ((generate_learning_path pattern_data
          user_metrics).learning_steps.map
        LearningStep.estimated_weeks).sum ∧
    (∀ g : GapInfo, g ∈ learning_gaps pattern_data user_metrics ↔
      ((g.metric, g.target) ∈ pattern_data ∧
       lookup? user_metrics g.metric = some g.current ∧
       g.gap = g.target - g.current ∧
       1/10 < g.gap)) ∧
    (generate_learning_path pattern_data user_metrics).learning_steps.map
      (fun st => (st.metric, st.improvement_needed, st.current_level,
        st.target_level))
      = ((List.insertionSort (keyDesc GapInfo.gap)
          (learning_gaps pattern_data user_metrics)).take 3).map
        (fun g => (g.metric, g.gap, g.current, g.target)) := by
  refine ⟨?_, ?_, ?_, rfl, mem_learning_gaps_iff pattern_data user_metrics,
    ?_⟩
  · simp only [generate_learning_path, List.length_map, List.enum_length]
    exact (List.length_take _ _) ▸ min_le_left _ _
  · simp only [generate_learning_path]
    rw [List.pairwise_map]
    dsimp only
    refine @pairwise_enum_of_pairwise GapInfo (fun x y => y.gap ≤ x.gap) _ ?_
    have hs := List.sorted_insertionSort (keyDesc GapInfo.gap)
      (learning_gaps pattern_data user_metrics)
    exact hs.sublist (List.take_sublist _ _)
  · intro st hst
    simp only [generate_learning_path, List.mem_map] at hst
    obtain ⟨iq, hiq, hst⟩ := hst
    have hg : iq.2 ∈ List.take 3 (List.insertionSort (keyDesc GapInfo.gap)
        (learning_gaps pattern_data user_metrics)) := by
      have h2 := List.mem_map_of_mem Prod.snd hiq
      rwa [List.enum_map_snd] at h2
    have hg3 := ((List.perm_insertionSort (keyDesc GapInfo.gap) _).mem_iff).mp
      (List.mem_of_mem_take hg)
    obtain ⟨hp, hlk, hgap, hqual⟩ :=
      (mem_learning_gaps_iff pattern_data user_metrics iq.2).mp hg3
    subst hst
    exact ⟨hqual, hgap, hlk, hp, rfl, rfl⟩
  · simp only [generate_learning_path]
    rw [List.map_map]
    exact enum_map_snd_comp _
      (fun g : GapInfo => (g.metric, g.gap, g.current, g.target))

/-- C8 witness: the amended step properties instantiated at a concrete
single-gap input (gap 0.5: priority high, `max(2, int(4.0)) = 4` weeks). -/
theorem learning_path_spec_witness :
    (generate_learning_path [("eye_contact", 9/10)]
      [("eye_contact", 2/5)]).learning_steps.length ≤ 3 ∧
    ((1:ℚ)/10 < (⟨1, "eye_contact", 2/5, 9/10, 1/2, "high", 4⟩
        : LearningStep).improvement_needed ∧
     (⟨1, "eye_contact", 2/5, 9/10, 1/2, "high", 4⟩
        : LearningStep).improvement_needed
       = (⟨1, "eye_contact", 2/5, 9/10, 1/2, "high", 4⟩
        : LearningStep).target_level
        - (⟨1, "eye_contact", 2/5, 9/10, 1/2, "high", 4⟩
        : LearningStep).current_level ∧
     lookup? [("eye_contact", (2:ℚ)/5)]
        ((⟨1, "eye_contact", 2/5, 9/10, 1/2, "high", 4⟩
          : LearningStep).metric)
       = some (⟨1, "eye_contact", 2/5, 9/10, 1/2, "high", 4⟩
        : LearningStep).current_level ∧
     ((⟨1, "eye_contact", 2/5, 9/10, 1/2, "high", 4⟩ : LearningStep).metric,
      (⟨1, "eye_contact", 2/5, 9/10, 1/2, "high", 4⟩
        : LearningStep).target_level)
       ∈ [("eye_contact", (9:ℚ)/10)] ∧
     (⟨1, "eye_contact", 2/5, 9/10, 1/2, "high", 4⟩ : LearningStep).priority
       = (if (3:ℚ)/10 < (⟨1, "eye_contact", 2/5, 9/10, 1/2, "high", 4⟩
          : LearningStep).improvement_needed then "high"
        else "medium") ∧
     (⟨1, "eye_contact", 2/5, 9/10, 1/2, "high", 4⟩
        : LearningStep).estimated_weeks
       = max 2 (pyInt ((⟨1, "eye_contact", 2/5, 9/10, 1/2, "high", 4⟩
          : LearningStep).improvement_needed * 8))) ∧
    (generate_learning_path [("eye_contact", 9/10)]
        [("eye_contact", 2/5)]).learning_steps.map
      (fun st => (st.metric, st.improvement_needed, st.current_level,
        st.target_level))
      = ((List.insertionSort (keyDesc GapInfo.gap)
          (learning_gaps [("eye_contact", 9/10)]
            [("eye_contact", 2/5)])).take 3).map
        (fun g => (g.metric, g.gap, g.current, g.target)) :=
  ⟨(learning_path_spec [("eye_contact", 9/10)] [("eye_contact", 2/5)]).1,
   (learning_path_spec [("eye_contact", 9/10)] [("eye_contact", 2/5)]).2.2.1 _
    (by norm_num [generate_learning_path, learning_gaps, lookup?, keyDesc,
      pyInt, List.filterMap_cons, List.insertionSort, List.orderedInsert,
      Int.floor_eq_iff]),
   (learning_path_spec [("eye_contact", 9/10)]
      [("eye_contact", 2/5)]).2.2.2.2.2⟩

theorem compareBreakdown_keys (user_metrics expert_pattern : List (String × ℚ))
    (skill_type : String) :
    (compareBreakdown user_metrics expert_pattern skill_type).map Prod.fst
      = user_metrics.map Prod.fst := by
  simp only [compareBreakdown, List.map_map]
  rfl

theorem compareBreakdown_entry {user_metrics expert_pattern : List (String × ℚ)}
    {skill_type : String} {k : String} {d : MetricComparison}
    (h : (k, d) ∈ compareBreakdown user_metrics expert_pattern skill_type) :
    d.similarity = 1 - |d.user_value - d.expert_value| ∧
    d.gap = d.expert_value - d.user_value := by
  obtain ⟨p, _, hpe⟩ := List.mem_map.mp h
  have hd : d = metricComparison (resolveWeights skill_type user_metrics)
      expert_pattern p.1 p.2 := (congrArg Prod.snd hpe).symm
  subst hd
  exact ⟨rfl, rfl⟩

/-- C7: over a comparison breakdown produced by `compare_to_expert` (with
distinct metric names), a metric is classified a strength iff its
similarity exceeds 0.8 and an improvement area iff its gap exceeds 0.2
(these cannot both hold, since similarity is `1 − |gap|`); a specific
recommendation is attached exactly when the gap exceeds 0.2 and the
metric is in the static recommendation lookup; a metric meeting neither
condition yields no feedback entry. -/
theorem feedback_classification (user_metrics expert_pattern : List (String × ℚ))
    (skill_type : String) (hnd : (user_metrics.map Prod.fst).Nodup)
    (k : String) (d : MetricComparison)
    (hk : (k, d) ∈ compareBreakdown user_metrics expert_pattern skill_type) :
    (k ∈ (generate_expert_feedback
        (compareBreakdown user_metrics expert_pattern skill_type)).strengths
      ↔ 4/5 < d.similarity) ∧
    (k ∈ (generate_expert_feedback
        (compareBreakdown user_metrics expert_pattern
          skill_type)).improvement_areas
      ↔ 1/5 < d.gap) ∧
    ¬ (k ∈ (generate_expert_feedback
        (compareBreakdown user_metrics expert_pattern skill_type)).strengths
      ∧ k ∈ (generate_expert_feedback
        (compareBreakdown user_metrics expert_pattern
          skill_type)).improvement_areas) ∧
    (k ∈ ((generate_expert_feedback
        (compareBreakdown user_metrics expert_pattern
          skill_type)).specific_recommendations.map
        SpecificRecommendation.metric)
      ↔ (1/5 < d.gap ∧ k ∈ recommendation_metrics)) := by
  have hbnd : ((compareBreakdown user_metrics expert_pattern skill_type).map
      Prod.fst).Nodup := by
    rw [compareBreakdown_keys]
    exact hnd
  have hrel := compareBreakdown_entry hk
  have hexcl : 4/5 < d.similarity → ¬ 1/5 < d.gap := by
    intro hs hg
    rw [hrel.1] at hs
    rw [hrel.2] at hg
    have h2 : d.expert_value - d.user_value
        ≤ |d.user_value - d.expert_value| := by
      rw [abs_sub_comm]
      exact le_abs_self _
    linarith
  have hiffS : k ∈ (generate_expert_feedback
      (compareBreakdown user_metrics expert_pattern skill_type)).strengths
      ↔ 4/5 < d.similarity := by
    constructor
    · intro hmem
      obtain ⟨p, hp, hpe⟩ := List.mem_filterMap.mp hmem
      split at hpe
      · rename_i hc
        have hk2 : (k, p.2) ∈ compareBreakdown user_metrics expert_pattern
            skill_type := by
          rw [← Option.some.inj hpe]
          exact Prod.mk.eta ▸ hp
        rw [mem_keyed_unique hbnd hk hk2]
        exact hc
      · cases hpe
    · intro hc
      exact List.mem_filterMap.mpr ⟨(k, d), hk, by rw [if_pos hc]⟩
  have hiffI : k ∈ (generate_expert_feedback
      (compareBreakdown user_metrics expert_pattern
        skill_type)).improvement_areas ↔ 1/5 < d.gap := by
    constructor
    · intro hmem
      obtain ⟨p, hp, hpe⟩ := List.mem_filterMap.mp hmem
      split at hpe
      · rename_i hc
        have hk2 : (k, p.2) ∈ compareBreakdown user_metrics expert_pattern
            skill_type := by
          rw [← Option.some.inj hpe]
          exact Prod.mk.eta ▸ hp
        rw [mem_keyed_unique hbnd hk hk2]
        exact hc.2
      · cases hpe
    · intro hg
      exact List.mem_filterMap.mpr ⟨(k, d), hk,
        by rw [if_pos ⟨fun hs => hexcl hs hg, hg⟩]⟩
  have hiffR : k ∈ ((generate_expert_feedback
      (compareBreakdown user_metrics expert_pattern
        skill_type)).specific_recommendations.map
      SpecificRecommendation.metric)
      ↔ (1/5 < d.gap ∧ k ∈ recommendation_metrics) := by
    constructor
    · intro hmem
      obtain ⟨r, hr, hrk⟩ := List.mem_map.mp hmem
      obtain ⟨p, hp, hpe⟩ := List.mem_filterMap.mp hr
      split at hpe
      · rename_i hc
        unfold get_specific_recommendation at hpe
        split at hpe
        · rename_i hrm
          have hre := Option.some.inj hpe
          have hmet : r.metric = p.1 := by rw [← hre]
          have hkp : k = p.1 := by rw [← hrk, hmet]
          rw [hkp] at hk ⊢
          have hk2 : (p.1, p.2) ∈ compareBreakdown user_metrics expert_pattern
              skill_type := Prod.mk.eta ▸ hp
          rw [mem_keyed_unique hbnd hk hk2]
          exact ⟨hc.2, hrm⟩
        · cases hpe
      · cases hpe
    · rintro ⟨hg, hkm⟩
      refine List.mem_map.mpr
        ⟨⟨k, if 3/10 < d.gap then "intermediate" else "beginner",
          if 3/10 < d.gap then "2-4 weeks" else "1-2 weeks"⟩,
         List.mem_filterMap.mpr ⟨(k, d), hk, ?_⟩, rfl⟩
      rw [if_pos ⟨fun hs => hexcl hs hg, hg⟩]
      simp [get_specific_recommendation, hkm]
  exact ⟨hiffS, hiffI,
    fun hboth => hexcl (hiffS.mp hboth.1) (hiffI.mp hboth.2), hiffR⟩

/-- C7 witness: the classification instantiated at the concrete breakdown
of comparing `{"eye_contact": 0.3}` against `{"eye_contact": 0.9}` (gap
0.6 > 0.2, similarity 0.4 ≤ 0.8, metric present in the static lookup). -/
theorem feedback_classification_witness :
    ("eye_contact" ∈ (generate_expert_feedback
        (compareBreakdown [("eye_contact", 3/10)] [("eye_contact", 9/10)]
          "General")).strengths
      ↔ 4/5 < (metricComparison
        (resolveWeights ("General") [("eye_contact", 3/10)])
        [("eye_contact", 9/10)] "eye_contact" (3/10)).similarity) ∧
    ("eye_contact" ∈ (generate_expert_feedback
        (compareBreakdown [("eye_contact", 3/10)] [("eye_contact", 9/10)]
          "General")).improvement_areas
      ↔ 1/5 < (metricComparison
        (resolveWeights ("General") [("eye_contact", 3/10)])
        [("eye_contact", 9/10)] "eye_contact" (3/10)).gap) ∧
    ¬ ("eye_contact" ∈ (generate_expert_feedback
        (compareBreakdown [("eye_contact", 3/10)] [("eye_contact", 9/10)]
          "General")).strengths
      ∧ "eye_contact" ∈ (generate_expert_feedback
        (compareBreakdown [("eye_contact", 3/10)] [("eye_contact", 9/10)]
          "General")).improvement_areas) ∧
    ("eye_contact" ∈ ((generate_expert_feedback
        (compareBreakdown [("eye_contact", 3/10)] [("eye_contact", 9/10)]
          "General")).specific_recommendations.map
        SpecificRecommendation.metric)
      ↔ (1/5 < (metricComparison
        (resolveWeights ("General") [("eye_contact", 3/10)])
        [("eye_contact", 9/10)] "eye_contact" (3/10)).gap
        ∧ "eye_contact" ∈ recommendation_metrics)) :=
  feedback_classification [("eye_contact", 3/10)] [("eye_contact", 9/10)]
    "General" (by decide) "eye_contact"
    (metricComparison (resolveWeights ("General") [("eye_contact", 3/10)])
      [("eye_contact", 9/10)] "eye_contact" (3/10))
    (List.mem_singleton.mpr rfl)

theorem lookupD_cons_of_ne {β : Type} {p : String × β} {l : List (String × β)}
    {k : String} (h : p.1 ≠ k) (d : β) : lookupD (p :: l) k d = lookupD l k d := by
  simp [lookupD, h]

theorem overall_similarity_eq (user_metrics expert_pattern : List (String × ℚ))
    (skill_type : String) :
    overall_similarity user_metrics expert_pattern skill_type
      = (user_metrics.map (fun p =>
          (1 - |p.2 - lookupD expert_pattern p.1 (1/2)|)
            * lookupD (resolveWeights skill_type user_metrics) p.1
              (1/10))).sum := by
  unfold overall_similarity compareBreakdown
  rw [List.map_map]
  rfl

theorem resolveWeights_eq_of_keys {m1 m2 : List (String × ℚ)}
    (skill_type : String) (hkeys : m1.map Prod.fst = m2.map Prod.fst) :
    resolveWeights skill_type m1 = resolveWeights skill_type m2 := by
  unfold resolveWeights
  have hlen : m1.length = m2.length := by
    have h := congrArg List.length hkeys
    simpa using h
  cases h : (lookupD skill_weights skill_type []).isEmpty
  · simp [h]
  · simp only [h, if_true]
    have e1 : m1.map (fun p => (p.1, 1 / (m1.length : ℚ)))
        = (m1.map Prod.fst).map (fun k => (k, 1 / (m1.length : ℚ))) := by
      rw [List.map_map]
      rfl
    have e2 : m2.map (fun p => (p.1, 1 / (m2.length : ℚ)))
        = (m2.map Prod.fst).map (fun k => (k, 1 / (m2.length : ℚ))) := by
      rw [List.map_map]
      rfl
    rw [e1, e2, hkeys, hlen]

theorem sum_sim_symm (W : List (String × ℚ)) :
    ∀ m1 m2 : List (String × ℚ),
    m1.map Prod.fst = m2.map Prod.fst → (m1.map Prod.fst).Nodup →
    (m1.map (fun p => (1 - |p.2 - lookupD m2 p.1 (1/2)|)
      * lookupD W p.1 (1/10))).sum
    = (m2.map (fun p => (1 - |p.2 - lookupD m1 p.1 (1/2)|)
      * lookupD W p.1 (1/10))).sum := by
  intro m1
  induction m1 with
  | nil =>
    intro m2 hkeys _
    have hm2 : m2 = [] := List.map_eq_nil_iff.mp hkeys.symm
    subst hm2
    rfl
  | cons p1 t1 ih =>
    intro m2 hkeys hnd
    cases m2 with
    | nil => simp at hkeys
    | cons p2 t2 =>
      simp only [List.map_cons, List.cons.injEq] at hkeys
      obtain ⟨hk1, hk2⟩ := hkeys
      simp only [List.map_cons, List.nodup_cons] at hnd
      obtain ⟨hnm, hnd2⟩ := hnd
      simp only [List.map_cons, List.sum_cons]
      have hl1 : lookupD (p2 :: t2) p1.1 (1/2) = p2.2 := by
        simp [lookupD, hk1.symm]
      have hl2 : lookupD (p1 :: t1) p2.1 (1/2) = p1.2 := by
        simp [lookupD, hk1]
      have ht1 : t1.map (fun p => (1 - |p.2 - lookupD (p2 :: t2) p.1 (1/2)|)
          * lookupD W p.1 (1/10))
          = t1.map (fun p => (1 - |p.2 - lookupD t2 p.1 (1/2)|)
          * lookupD W p.1 (1/10)) := by
        refine List.map_congr_left ?_
        intro q hq
        have hqne : p2.1 ≠ q.1 := by
          rw [← hk1]
          intro he
          exact hnm (he ▸ List.mem_map_of_mem Prod.fst hq)
        rw [lookupD_cons_of_ne hqne]
      have ht2 : t2.map (fun p => (1 - |p.2 - lookupD (p1 :: t1) p.1 (1/2)|)
          * lookupD W p.1 (1/10))
          = t2.map (fun p => (1 - |p.2 - lookupD t1 p.1 (1/2)|)
          * lookupD W p.1 (1/10)) := by
        refine List.map_congr_left ?_
        intro q hq
        have hqk : q.1 ∈ t1.map Prod.fst := by
          rw [hk2]
          exact List.mem_map_of_mem Prod.fst hq
        have hqne : p1.1 ≠ q.1 := by
          intro he
          exact hnm (he ▸ hqk)
        rw [lookupD_cons_of_ne hqne]
      rw [hl1, hl2, ht1, ht2, ih t2 hk2 hnd2, abs_sub_comm, hk1]

/-- C4 (amended): similarity is symmetric in the two metric vectors when
they range over the same metric names (same key sequence, no duplicates):
`compare(m1, m2, s).overall = compare(m2, m1, s).overall`.  With differing
key sets symmetry fails, since only the first argument's keys are
iterated. -/
theorem overall_similarity_symm (m1 m2 : List (String × ℚ))
    (skill_type : String) (hkeys : m1.map Prod.fst = m2.map Prod.fst)
    (hnd : (m1.map Prod.fst).Nodup) :
    overall_similarity m1 m2 skill_type
      = overall_similarity m2 m1 skill_type := by
  rw [overall_similarity_eq, overall_similarity_eq,
    resolveWeights_eq_of_keys skill_type hkeys]
  exact sum_sim_symm _ m1 m2 hkeys hnd

/-- C4 witness: symmetry at the concrete aligned vectors `{"a": 0.25}`
and `{"a": 0.75}`. -/
theorem overall_similarity_symm_witness :
    overall_similarity [("a", 1/4)] [("a", 3/4)] "X"
      = overall_similarity [("a", 3/4)] [("a", 1/4)] "X" :=
  overall_similarity_symm [("a", 1/4)] [("a", 3/4)] "X" rfl (by simp)

theorem lookupD_nonneg {l : List (String × ℚ)}
    (hl : ∀ p ∈ l, 0 ≤ p.2) {k : String} {d : ℚ} (hd : 0 ≤ d) :
    0 ≤ lookupD l k d := by
  rcases lookupD_mem_or_default l k d with h | h
  · rw [h]; exact hd
  · exact hl _ h

theorem lookupD_unit_bounds {l : List (String × ℚ)}
    (hl : ∀ p ∈ l, 0 ≤ p.2 ∧ p.2 ≤ 1) (k : String) :
    0 ≤ lookupD l k (1/2) ∧ lookupD l k (1/2) ≤ 1 := by
  rcases lookupD_mem_or_default l k (1/2) with h | h
  · rw [h]; norm_num
  · exact hl _ h

theorem skill_table_props : ∀ st ∈ skill_weights,
    (∀ p ∈ st.2, 0 ≤ p.2) ∧ (st.2.map Prod.fst).Nodup ∧
    (st.2.map Prod.snd).sum = 1 := by
  intro st hst
  simp only [skill_weights, List.mem_cons, List.not_mem_nil, or_false] at hst
  rcases hst with h | h | h | h | h <;> subst h <;>
    exact ⟨by norm_num [List.forall_mem_cons], by decide, by norm_num⟩

theorem fallback_weights_facts (user_metrics : List (String × ℚ))
    (hnd : (user_metrics.map Prod.fst).Nodup) :
    (∀ p ∈ user_metrics.map
        (fun p => (p.1, 1 / (user_metrics.length : ℚ))), 0 ≤ p.2) ∧
    ((user_metrics.map
        (fun p => (p.1, 1 / (user_metrics.length : ℚ)))).map
      Prod.fst).Nodup ∧
    ((user_metrics.map
        (fun p => (p.1, 1 / (user_metrics.length : ℚ)))).map
      Prod.snd).sum ≤ 1 := by
  refine ⟨?_, ?_, ?_⟩
  · intro p hp
    obtain ⟨q, _, hq⟩ := List.mem_map.mp hp
    rw [← hq]
    exact one_div_nonneg.mpr (Nat.cast_nonneg _)
  · have e : (user_metrics.map
        (fun p => (p.1, 1 / (user_metrics.length : ℚ)))).map Prod.fst
        = user_metrics.map Prod.fst := by
      rw [List.map_map]
      rfl
    rw [e]
    exact hnd
  · have e : (user_metrics.map
        (fun p => (p.1, 1 / (user_metrics.length : ℚ)))).map Prod.snd
        = user_metrics.map (fun _ => 1 / (user_metrics.length : ℚ)) := by
      rw [List.map_map]
      rfl
    rw [e, sum_map_const_rat]
    rcases eq_or_ne ((user_metrics.length : ℚ)) 0 with h0 | h0
    · rw [h0]
      norm_num
    · rw [mul_one_div_cancel h0]

theorem resolveWeights_facts (skill_type : String)
    (user_metrics : List (String × ℚ))
    (hnd : (user_metrics.map Prod.fst).Nodup) :
    (∀ p ∈ resolveWeights skill_type user_metrics, 0 ≤ p.2) ∧
    ((resolveWeights skill_type user_metrics).map Prod.fst).Nodup ∧
    ((resolveWeights skill_type user_metrics).map Prod.snd).sum ≤ 1 := by
  unfold resolveWeights
  cases hE : (lookupD skill_weights skill_type []).isEmpty
  · simp only [hE]
    rcases lookupD_mem_or_default skill_weights skill_type [] with hd | hm
    · rw [hd] at hE
      cases hE
    · have hp := skill_table_props _ hm
      exact ⟨hp.1, hp.2.1, le_of_eq hp.2.2⟩
  · simp only [hE, if_true]
    exact fallback_weights_facts user_metrics hnd

/-- C2 (amended): for metric vectors with all values in `[0, 1]` and
distinct user metric names, the overall similarity is nonnegative, and it
is at most 1 provided every user metric name carries a weight in the
applied weight map (the configured skill table, or the equal-weight
fallback).  Metrics outside a configured table receive the default weight
0.1, which can push the overall similarity above 1. -/
theorem overall_similarity_bounds (user_metrics expert_pattern : List (String × ℚ))
    (skill_type : String)
    (hu : ∀ p ∈ user_metrics, 0 ≤ p.2 ∧ p.2 ≤ 1)
    (he : ∀ p ∈ expert_pattern, 0 ≤ p.2 ∧ p.2 ≤ 1)
    (hnd : (user_metrics.map Prod.fst).Nodup)
    (hcov : ∀ p ∈ user_metrics,
      p.1 ∈ (resolveWeights skill_type user_metrics).map Prod.fst) :
    0 ≤ overall_similarity user_metrics expert_pattern skill_type ∧
    overall_similarity user_metrics expert_pattern skill_type ≤ 1 := by
  obtain ⟨hWpos, hWnd, hWsum⟩ :=
    resolveWeights_facts skill_type user_metrics hnd
  rw [overall_similarity_eq]
  have hsim : ∀ p ∈ user_metrics,
      0 ≤ 1 - |p.2 - lookupD expert_pattern p.1 (1/2)| ∧
      1 - |p.2 - lookupD expert_pattern p.1 (1/2)| ≤ 1 := by
    intro p hp
    obtain ⟨hu0, hu1⟩ := hu p hp
    obtain ⟨he0, he1⟩ := lookupD_unit_bounds he p.1
    have habs : |p.2 - lookupD expert_pattern p.1 (1/2)| ≤ 1 :=
      abs_le.mpr ⟨by linarith, by linarith⟩
    have habs0 : 0 ≤ |p.2 - lookupD expert_pattern p.1 (1/2)| := abs_nonneg _
    exact ⟨by linarith, by linarith⟩
  have hw : ∀ p : String × ℚ,
      0 ≤ lookupD (resolveWeights skill_type user_metrics) p.1 (1/10) :=
    fun p => lookupD_nonneg hWpos (by norm_num)
  constructor
  · refine List.sum_nonneg ?_
    intro x hx
    obtain ⟨p, hp, hpx⟩ := List.mem_map.mp hx
    rw [← hpx]
    exact mul_nonneg (hsim p hp).1 (hw p)
  · calc (user_metrics.map (fun p =>
          (1 - |p.2 - lookupD expert_pattern p.1 (1/2)|)
            * lookupD (resolveWeights skill_type user_metrics) p.1
              (1/10))).sum
        ≤ (user_metrics.map (fun p =>
          lookupD (resolveWeights skill_type user_metrics) p.1
            (1/10))).sum := by
          refine List.sum_le_sum ?_
          intro p hp
          exact mul_le_of_le_one_left (hw p) (hsim p hp).2
      _ = ((user_metrics.map Prod.fst).map (fun k =>
          lookupD (resolveWeights skill_type user_metrics) k
            (1/10))).sum := by
          rw [List.map_map]
          rfl
      _ ≤ ((resolveWeights skill_type user_metrics).map Prod.snd).sum := by
          refine sum_lookupD_le _ _ _ hnd hWnd hWpos ?_
          intro k hk
          obtain ⟨p, hp, hpk⟩ := List.mem_map.mp hk
          rw [← hpk]
          exact hcov p hp
      _ ≤ 1 := hWsum

/-- C2 witness: the bounds at the concrete input
`{"eye_contact": 0.5}` vs `{"eye_contact": 1}` under the configured
"Public Speaking" weight table. -/
theorem overall_similarity_bounds_witness :
    0 ≤ overall_similarity [("eye_contact", 1/2)] [("eye_contact", 1)]
      "Public Speaking" ∧
    overall_similarity [("eye_contact", 1/2)] [("eye_contact", 1)]
      "Public Speaking" ≤ 1 :=
  overall_similarity_bounds [("eye_contact", 1/2)] [("eye_contact", 1)]
    "Public Speaking"
    (by
      intro p hp
      rcases List.mem_singleton.mp hp with rfl
      norm_num)
    (by
      intro p hp
      rcases List.mem_singleton.mp hp with rfl
      norm_num)
    (by simp)
    (by
      intro p hp
      rcases List.mem_singleton.mp hp with rfl
      simp [resolveWeights, lookupD, skill_weights])

end Learn
